import Mathlib

set_option maxRecDepth 100000

/-!
Verification of the guerrillantp configuration repository
(`src/scripts/configure.py`): a shallow embedding of the project
descriptor, its overriding `Project` class, and the contract of the
external scaffolding engine, together with theorems settling the
specification claims.
-/

namespace GuerrillaNtp

/-- A dependency reference: a package name together with a version. -/
structure DependencyRef where
  name : String
  version : String
deriving DecidableEq, Repr

/-- Modelled from the spec: the base profile (`rvscaffold.Net`, absent from
`src/`): one base default per descriptor field, the base dependency and
documentation-link sequences, the `stable_status` lifecycle preset, and
base values for every query the concrete `Project` overrides. -/
structure Base where
  root_namespace : String
  inception_year : Int
  nuget_description : String
  nuget_tags : String
  project_status : String
  stable_status : String
  backport_frameworks : List String
  dependencies : List DependencyRef
  documentation_links : List (String × String)
  notice_text : String
deriving DecidableEq, Repr

/-- The process environment visible to the runner script: the script's own
file path (Python `__file__`). -/
structure Env where
  script_file : String
deriving DecidableEq, Repr

/-- Modelled from the spec: the base class helper `use` (absent from `src/`)
turning a `name:version` dependency string into a `DependencyRef`, as in the
spec scenario mapping `System.Memory:4.5.5` to `("System.Memory", "4.5.5")`. -/
def use (s : String) : DependencyRef :=
  { name := String.mk (s.data.takeWhile (fun c => c ≠ ':')),
    version := String.mk ((s.data.dropWhile (fun c => c ≠ ':')).drop 1) }

namespace Project

/-- `def script_path_text(self): return __file__` -/
def script_path_text (env : Env) : String :=
  env.script_file

/-- `def root_namespace(self): return 'GuerrillaNtp'` -/
def root_namespace (_ : Base) (_ : Env) : String :=
  "GuerrillaNtp"

/-- `def inception_year(self): return 2014` -/
def inception_year (_ : Base) (_ : Env) : Int :=
  2014

/-- `def nuget_description(self): return 'Simple NTP (SNTP) client ...'` -/
def nuget_description (_ : Base) (_ : Env) : String :=
  "Simple NTP (SNTP) client that can be embedded in desktop applications to provide accurate network time even when the system clock is unsynchronized."

/-- `def nuget_tags(self): return 'NTP; SNTP; time; clock; network'` -/
def nuget_tags (_ : Base) (_ : Env) : String :=
  "NTP; SNTP; time; clock; network"

/-- `def project_status(self): return self.stable_status()` -/
def project_status (base : Base) (_ : Env) : String :=
  base.stable_status

/-- `def backport_frameworks(self): return ['2.0']` -/
def backport_frameworks (_ : Base) (_ : Env) : List String :=
  ["2.0"]

/-- `def dependencies(self): yield from super().dependencies(); yield self.use('System.Memory:4.5.5')` -/
def dependencies (base : Base) (_ : Env) : List DependencyRef :=
  base.dependencies ++ [use "System.Memory:4.5.5"]

/-- `def documentation_links(self): yield from super().documentation_links(); yield 'CLI demo', 'https://guerrillantp.machinezoo.com/cli'` -/
def documentation_links (base : Base) (_ : Env) : List (String × String) :=
  base.documentation_links ++ [("CLI demo", "https://guerrillantp.machinezoo.com/cli")]

/-- `def notice_text(self): return '''\ ...'''` — the opening `\` escapes only
the line break, so the string begins with the 12-space source indentation of
the first content line and ends with a newline plus the 8-space indentation
preceding the closing quotes. -/
def notice_text (_ : Base) (_ : Env) : String :=
  "            This code contains imported, though modified, code from\n            https://github.com/dotnet/runtime/blob/419e949d258ecee4c40a460fb09c66d974229623/src/libraries/System.Private.CoreLib/src/System/Index.cs\n            https://github.com/dotnet/runtime/blob/419e949d258ecee4c40a460fb09c66d974229623/src/libraries/System.Private.CoreLib/src/System/Range.cs\n            which is MIT licensed: https://github.com/dotnet/runtime/blob/419e949d258ecee4c40a460fb09c66d974229623/LICENSE.TXT\n        "

end Project

/-- A concrete sample base profile, used as a test input. -/
def sampleBase : Base where
  root_namespace := "Rv.Default"
  inception_year := 2000
  nuget_description := "base description"
  nuget_tags := "base; tags"
  project_status := "experimental"
  stable_status := "stable"
  backport_frameworks := []
  dependencies := [{ name := "Foo", version := "1.0" }]
  documentation_links := [("Home", "http://base/")]
  notice_text := ""

/-- A concrete sample environment, used as a test input. -/
def sampleEnv : Env where
  script_file := "scripts/configure.py"

/-- The names of a dependency list, in order. -/
def depNames (l : List DependencyRef) : List String :=
  l.map DependencyRef.name

/-- Modelled from the spec: the duplicate-name validation of the descriptor
(absent from `src/`): a dependency list whose names repeat is rejected as a
validation error, never silently deduplicated; a valid list is passed
through unchanged. -/
def validateDependencies (l : List DependencyRef) :
    Except String (List DependencyRef) :=
  if (depNames l).Nodup then Except.ok l
  else Except.error "duplicate dependency name"

/-- Modelled from the spec: the fully resolved descriptor snapshot the
Generation Engine consumes, one attribute per field of the Descriptor
Model. -/
structure Descriptor where
  root_namespace : String
  inception_year : Int
  nuget_description : String
  nuget_tags : String
  project_status : String
  backport_frameworks : List String
  dependencies : List DependencyRef
  documentation_links : List (String × String)
  notice_text : String
deriving DecidableEq, Repr

/-- The resolution of the concrete `Project` against a base profile: each
field is the value of the corresponding (possibly overriding) query. -/
def resolveProject (base : Base) (env : Env) : Descriptor where
  root_namespace := Project.root_namespace base env
  inception_year := Project.inception_year base env
  nuget_description := Project.nuget_description base env
  nuget_tags := Project.nuget_tags base env
  project_status := Project.project_status base env
  backport_frameworks := Project.backport_frameworks base env
  dependencies := Project.dependencies base env
  documentation_links := Project.documentation_links base env
  notice_text := Project.notice_text base env

/-- Modelled from the spec: the fixed set of output files the Generation
Engine renders from a resolved descriptor — build definitions, a package
manifest embedding description, tags and dependencies, a notice file
populated from the notice text, and a documentation index ordered per the
documentation links. Each file is a pure rendering of descriptor fields. -/
def renderOutputs (d : Descriptor) : List (String × String) :=
  [ ("build.props",
      d.root_namespace ++ "\n" ++ toString d.inception_year ++ "\n"
        ++ String.intercalate ";" d.backport_frameworks),
    ("package.nuspec",
      d.nuget_description ++ "\n" ++ d.nuget_tags ++ "\n" ++ d.project_status
        ++ "\n"
        ++ String.intercalate "\n"
            (d.dependencies.map (fun r => r.name ++ ":" ++ r.version))),
    ("NOTICE.txt", d.notice_text),
    ("doc-index.md",
      String.intercalate "\n"
        (d.documentation_links.map (fun p => p.1 ++ ": " ++ p.2))) ]

/-- The project's working file tree: a map from file name to content. -/
def FileTree : Type := String → Option String

/-- Writing one file: create or overwrite its content. -/
def writeFile (t : FileTree) (f : String × String) : FileTree :=
  fun n => if n = f.1 then some f.2 else t n

/-- Writing a list of files in order, later writes winning. -/
def writeAll (t : FileTree) (outs : List (String × String)) : FileTree :=
  outs.foldl writeFile t

/-- The content the last write to a given name leaves, if any. -/
def lastContent (outs : List (String × String)) (n : String) : Option String :=
  match outs with
  | [] => none
  | f :: rest =>
    match lastContent rest n with
    | some c => some c
    | none => if n = f.1 then some f.2 else none

/-- One `generate()` run over a file tree: render the outputs of the
resolved descriptor and write each of them into the tree. -/
def generateRun (t : FileTree) (d : Descriptor) : FileTree :=
  writeAll t (renderOutputs d)

/-- The observable actions of the runner script. -/
inductive RunnerAction where
  | constructDescriptor
  | generate
deriving DecidableEq, Repr

/-- The straight-line top level of `configure.py`, line 31:
`Project().generate()` — one construction, then one generation call. -/
def runnerTrace : List RunnerAction :=
  [RunnerAction.constructDescriptor, RunnerAction.generate]

/-- The descriptor fields, as a closed enumeration of query names. -/
inductive Field where
  | root_namespace
  | inception_year
  | nuget_description
  | nuget_tags
  | project_status
  | backport_frameworks
  | dependencies
  | documentation_links
  | notice_text
deriving DecidableEq, Repr

/-- A descriptor field value. -/
inductive FieldValue where
  | str : String → FieldValue
  | int : Int → FieldValue
  | strList : List String → FieldValue
  | deps : List DependencyRef → FieldValue
  | links : List (String × String) → FieldValue
deriving DecidableEq, Repr

/-- Evaluation of one field query of the concrete `Project`, `Except`-valued
to expose any failure path: each branch runs the (overriding or inherited)
query of `configure.py` for that field. -/
def queryField (base : Base) (env : Env) : Field → Except String FieldValue
  | Field.root_namespace => Except.ok (FieldValue.str (Project.root_namespace base env))
  | Field.inception_year => Except.ok (FieldValue.int (Project.inception_year base env))
  | Field.nuget_description => Except.ok (FieldValue.str (Project.nuget_description base env))
  | Field.nuget_tags => Except.ok (FieldValue.str (Project.nuget_tags base env))
  | Field.project_status => Except.ok (FieldValue.str (Project.project_status base env))
  | Field.backport_frameworks => Except.ok (FieldValue.strList (Project.backport_frameworks base env))
  | Field.dependencies => Except.ok (FieldValue.deps (Project.dependencies base env))
  | Field.documentation_links => Except.ok (FieldValue.links (Project.documentation_links base env))
  | Field.notice_text => Except.ok (FieldValue.str (Project.notice_text base env))

/-- Modelled from the spec: the tag list as the Descriptor Model defines it,
an ordered sequence of strings, one string per tag. -/
def tagsSpecSequence : List String :=
  ["NTP", "SNTP", "time", "clock", "network"]

/-- The four text lines of the notice, without their source indentation. -/
def noticeBodyLines : List String :=
  ["This code contains imported, though modified, code from",
   "https://github.com/dotnet/runtime/blob/419e949d258ecee4c40a460fb09c66d974229623/src/libraries/System.Private.CoreLib/src/System/Index.cs",
   "https://github.com/dotnet/runtime/blob/419e949d258ecee4c40a460fb09c66d974229623/src/libraries/System.Private.CoreLib/src/System/Range.cs",
   "which is MIT licensed: https://github.com/dotnet/runtime/blob/419e949d258ecee4c40a460fb09c66d974229623/LICENSE.TXT"]

/-- A base profile whose dependency list already carries the name
`System.Memory`, so that the project-specific addition duplicates it. -/
def dupBase : Base :=
  { sampleBase with dependencies := [{ name := "System.Memory", version := "4.0.0" }] }

/-- For every list of writes, a tree updated by them holds, at each name, the
content of the last write to that name, and elsewhere its old content. -/
theorem writeAll_eq (outs : List (String × String)) :
    ∀ (t : FileTree) (n : String),
      writeAll t outs n = (lastContent outs n).or (t n) := by
  induction outs with
  | nil => intro t n; rfl
  | cons f rest ih =>
    intro t n
    show writeAll (writeFile t f) rest n = _
    rw [ih]
    show _ = Option.or (match lastContent rest n with
      | some c => some c
      | none => if n = f.1 then some f.2 else none) (t n)
    cases h : lastContent rest n with
    | some c => rfl
    | none =>
      show Option.or none (writeFile t f n) = _
      unfold writeFile
      cases hn : decide (n = f.1) with
      | true => simp [of_decide_eq_true hn]
      | false => simp [of_decide_eq_false hn]

/-- C1: For every base profile, the resolved dependency list of the
overriding `Project` equals the base dependency list followed by the
project-specific additions: the prefix of base length is exactly the base
list, entry for entry in its original positions, and what follows is
exactly the single addition `use 'System.Memory:4.5.5'`, i.e. the
dependency `("System.Memory", "4.5.5")`. -/
theorem dependencies_extend_base (base : Base) (env : Env) :
    Project.dependencies base env
        = base.dependencies ++ [use "System.Memory:4.5.5"] ∧
    (Project.dependencies base env).take base.dependencies.length
        = base.dependencies ∧
    (Project.dependencies base env).drop base.dependencies.length
        = [{ name := "System.Memory", version := "4.5.5" }] := by
  refine ⟨rfl, List.take_left _ _, ?_⟩
  show (base.dependencies ++ [use "System.Memory:4.5.5"]).drop
      base.dependencies.length = _
  rw [List.drop_left]
  decide

/-- C2: For every base profile, the resolved documentation-link sequence of
the overriding `Project` equals the base sequence followed by the appended
links, in exactly that order: the prefix of base length is the base sequence
unchanged, and what follows is exactly the single appended pair
`("CLI demo", "https://guerrillantp.machinezoo.com/cli")`. -/
theorem documentation_links_extend_base (base : Base) (env : Env) :
    Project.documentation_links base env
        = base.documentation_links
            ++ [("CLI demo", "https://guerrillantp.machinezoo.com/cli")] ∧
    (Project.documentation_links base env).take base.documentation_links.length
        = base.documentation_links ∧
    (Project.documentation_links base env).drop base.documentation_links.length
        = [("CLI demo", "https://guerrillantp.machinezoo.com/cli")] := by
  refine ⟨rfl, List.take_left _ _, ?_⟩
  show (base.documentation_links
      ++ [("CLI demo", "https://guerrillantp.machinezoo.com/cli")]).drop
      base.documentation_links.length = _
  rw [List.drop_left]

/-- C3: Every scalar field the concrete `Project` overrides without calling
the base implementation evaluates to exactly the overriding literal,
irrespective of the base profile: for any two base profiles the overridden
queries agree, and each equals its literal from `configure.py`. -/
theorem scalar_overrides_full_replacement (b1 b2 : Base) (e : Env) :
    Project.root_namespace b1 e = "GuerrillaNtp" ∧
    Project.inception_year b1 e = 2014 ∧
    Project.nuget_description b1 e
        = "Simple NTP (SNTP) client that can be embedded in desktop applications to provide accurate network time even when the system clock is unsynchronized." ∧
    Project.nuget_tags b1 e = "NTP; SNTP; time; clock; network" ∧
    Project.backport_frameworks b1 e = ["2.0"] ∧
    Project.notice_text b1 e
        = String.intercalate "\n"
            (noticeBodyLines.map (fun s => "            " ++ s)) ++ "\n        " ∧
    Project.root_namespace b1 e = Project.root_namespace b2 e ∧
    Project.inception_year b1 e = Project.inception_year b2 e ∧
    Project.nuget_description b1 e = Project.nuget_description b2 e ∧
    Project.nuget_tags b1 e = Project.nuget_tags b2 e ∧
    Project.backport_frameworks b1 e = Project.backport_frameworks b2 e ∧
    Project.notice_text b1 e = Project.notice_text b2 e := by
  refine ⟨rfl, rfl, rfl, rfl, rfl, ?_, rfl, rfl, rfl, rfl, rfl, rfl⟩
  exact (by decide :
    Project.notice_text sampleBase sampleEnv
      = String.intercalate "\n"
          (noticeBodyLines.map (fun s => "            " ++ s)) ++ "\n        ")

/-- C4: Generation is idempotent: rendering the output file set of a fixed
resolved descriptor snapshot and writing it into the working tree a second
time leaves the tree exactly as after the first run — both for an arbitrary
descriptor and for the descriptor resolved from the concrete `Project`.
The output set itself is a pure function of the snapshot, so the two runs
write identical file sets. -/
theorem generate_idempotent (t : FileTree) (d : Descriptor)
    (base : Base) (env : Env) :
    generateRun (generateRun t d) d = generateRun t d ∧
    generateRun (generateRun t (resolveProject base env))
        (resolveProject base env)
      = generateRun t (resolveProject base env) := by
  have key : ∀ (t : FileTree) (d : Descriptor),
      generateRun (generateRun t d) d = generateRun t d := by
    intro t d
    funext n
    show writeAll (writeAll t (renderOutputs d)) (renderOutputs d) n
        = writeAll t (renderOutputs d) n
    rw [writeAll_eq, writeAll_eq]
    cases lastContent (renderOutputs d) n <;> rfl
  exact ⟨key t d, key t _⟩

/-- C5: Validation enforces the name-uniqueness invariant: a dependency list
passes validation unchanged exactly when its names are pairwise distinct; a
list with a repeated name is rejected as a validation error; and validation
never returns a modified (in particular, never a deduplicated) list. -/
theorem duplicate_names_rejected (l : List DependencyRef) :
    (validateDependencies l = Except.ok l ↔ (depNames l).Nodup) ∧
    (¬ (depNames l).Nodup →
      validateDependencies l = Except.error "duplicate dependency name") ∧
    (∀ l', validateDependencies l = Except.ok l' → l' = l) := by
  unfold validateDependencies
  by_cases h : (depNames l).Nodup
  · rw [if_pos h]
    exact ⟨⟨fun _ => h, fun _ => rfl⟩, fun hn => absurd h hn,
      fun l' e => (Except.ok.inj e).symm⟩
  · rw [if_neg h]
    exact ⟨⟨fun e => Except.noConfusion e, fun hn => absurd hn h⟩,
      fun _ => rfl, fun l' e => Except.noConfusion e⟩

/-- Witness for C5: the resolved dependency list of a base profile that
already lists `System.Memory` carries a duplicate name and is rejected. -/
theorem duplicate_names_rejected_witness :
    validateDependencies (Project.dependencies dupBase sampleEnv)
      = Except.error "duplicate dependency name" :=
  (duplicate_names_rejected (Project.dependencies dupBase sampleEnv)).2.1
    (by decide)

/-- C6: The runner's top level, `Project().generate()`, is a single
straight-line invocation: its trace constructs exactly one descriptor and
calls the generation pathway exactly once, in that order, with no further
actions. -/
theorem runner_single_invocation :
    runnerTrace.count RunnerAction.constructDescriptor = 1 ∧
    runnerTrace.count RunnerAction.generate = 1 ∧
    runnerTrace = [RunnerAction.constructDescriptor, RunnerAction.generate] := by
  decide

/-- Counterexample for C7: the tags query of the concrete `Project` returns
a single combined value, not a sequence: its result is the one string
obtained by joining the five tags with a semicolon separator — a string
containing the separator character that no individual tag contains. -/
theorem nuget_tags_combined_counterexample :
    Project.nuget_tags sampleBase sampleEnv
        = String.intercalate "; " tagsSpecSequence ∧
    ';' ∈ (Project.nuget_tags sampleBase sampleEnv).data ∧
    ∀ t ∈ tagsSpecSequence, ';' ∉ t.data := by
  decide

/-- C7 (amended): the Descriptor Model's tag sequence is the five-string
list `[NTP, SNTP, time, clock, network]`, but the concrete `Project`'s
`nuget_tags()` returns it as a single semicolon-delimited string — the
join of that ordered sequence — rather than as a sequence of strings. -/
theorem nuget_tags_joined_sequence (b : Base) (e : Env) :
    Project.nuget_tags b e = String.intercalate "; " tagsSpecSequence ∧
    tagsSpecSequence.length = 5 := by
  exact ⟨(by decide :
    Project.nuget_tags sampleBase sampleEnv
      = String.intercalate "; " tagsSpecSequence), rfl⟩

/-- C8: Every descriptor field query of the concrete `Project` — base
defaults, scalar overrides and the sequence-extension overrides alike — is
total: evaluation always yields a value and never an error. -/
theorem queries_never_fail (base : Base) (env : Env) (f : Field) :
    ∃ v, queryField base env f = Except.ok v := by
  cases f <;> exact ⟨_, rfl⟩

/-- Counterexample for C9: the escaped opening line break removes only the
newline, not the indentation that follows it, so the string's first line
does not start immediately with `This code contains`: its first twelve
characters are spaces. -/
theorem notice_first_line_counterexample :
    (Project.notice_text sampleBase sampleEnv).data.take 12
        = List.replicate 12 ' ' ∧
    ¬ (Project.notice_text sampleBase sampleEnv).data.take 18
        = "This code contains".data := by
  decide

/-- C9 (amended): `notice_text()` returns a constant string of exactly four
text lines, every one of them — the first included — beginning with the
literal 12-space source indentation (the string is not dedented), followed
by a final newline and the 8-space closing indentation; the escaped opening
line break means only that the string does not begin with a newline. -/
theorem notice_text_lines (b : Base) (e : Env) :
    Project.notice_text b e
        = String.intercalate "\n"
            (noticeBodyLines.map (fun s => "            " ++ s)) ++ "\n        " ∧
    noticeBodyLines.length = 4 ∧
    (Project.notice_text b e).data.take 1 = [' '] := by
  refine ⟨?_, rfl, ?_⟩
  · exact (by decide :
      Project.notice_text sampleBase sampleEnv
        = String.intercalate "\n"
            (noticeBodyLines.map (fun s => "            " ++ s)) ++ "\n        ")
  · exact (by decide :
      (Project.notice_text sampleBase sampleEnv).data.take 1 = [' '])

/-- C10: Every overridden field method of the concrete `Project` except
`script_path_text()` is constant across environments: for a fixed base
profile, any two environments give equal values for every query; only
`script_path_text()` reads the environment, returning the script's own
file path, and two environments with different paths give it different
values. -/
theorem overridden_queries_env_constant (b : Base) (e1 e2 : Env) :
    Project.root_namespace b e1 = Project.root_namespace b e2 ∧
    Project.inception_year b e1 = Project.inception_year b e2 ∧
    Project.nuget_description b e1 = Project.nuget_description b e2 ∧
    Project.nuget_tags b e1 = Project.nuget_tags b e2 ∧
    Project.project_status b e1 = Project.project_status b e2 ∧
    Project.backport_frameworks b e1 = Project.backport_frameworks b e2 ∧
    Project.dependencies b e1 = Project.dependencies b e2 ∧
    Project.documentation_links b e1 = Project.documentation_links b e2 ∧
    Project.notice_text b e1 = Project.notice_text b e2 ∧
    Project.script_path_text e1 = e1.script_file ∧
    Project.script_path_text { script_file := "a" }
        ≠ Project.script_path_text { script_file := "b" } := by
  refine ⟨rfl, rfl, rfl, rfl, rfl, rfl, rfl, rfl, rfl, rfl, by decide⟩

end GuerrillaNtp
